import Mathlib

/-!
Verification of the location-aware assignment and ABI-encoding engine of the
vyper compiler (src/vyper/parser/parser_utils.py), as a shallow embedding.

Python functions are translated into Lean functions over an explicit model of
the compiler data structures: value types (vyper.types), LLL IR nodes
(vyper.parser.lll_node.LLLnode) and the exception taxonomy (vyper.exceptions).
Fallible code returns Except; a Python implicit return of None is modelled as
Except.ok Option.none; Python runtime faults (UnboundLocalError, IndexError,
TypeError, AttributeError, RecursionError) are modelled as a pythonError value.
-/

set_option maxRecDepth 4000
set_option maxHeartbeats 1000000

namespace Vyper

/-- The exception taxonomy of vyper.exceptions, restricted to the kinds raised
by parser_utils, plus a constructor for faults of the Python runtime itself. -/
inductive VyperErr where
  | typeMismatch
  | invalidLiteral
  | arrayIndex
  | structureError
  | constancyViolation
  | compilerPanic
  | pythonError (kind : String)
deriving Repr, DecidableEq

/-- Value types from vyper.types as consumed by parser_utils.  A base type
carries its name, an optional unit annotation, the positional flag, the
is_literal flag, and whether it is a ContractType (a BaseType subclass). -/
inductive VType where
  | base (name : String) (unit : Option String) (positional : Bool)
      (is_literal : Bool) (is_contract : Bool)
  | byteArrayT (maxlen : Nat)
  | stringT (maxlen : Nat)
  | listT (subtype : VType) (count : Nat)
  | mappingT (keytype : VType) (valuetype : VType)
  | structT (name : String) (members : List (String × VType))
  | tupleT (members : List VType)

/-- isinstance(typ, ByteArrayLike). -/
def VType.isByteArrayLike : VType → Bool
  | .byteArrayT _ => true
  | .stringT _ => true
  | _ => false

/-- isinstance(typ, ByteArrayType). -/
def VType.isByteArrayType : VType → Bool
  | .byteArrayT _ => true
  | _ => false

/-- The maxlen attribute of a ByteArrayLike type (guarded by isByteArrayLike
at every use site, mirroring the attribute accesses of the source). -/
def VType.maxlenOf : VType → Nat
  | .byteArrayT m => m
  | .stringT m => m
  | _ => 0

/-- is_base_type(typ, btypes) from vyper.types: isinstance BaseType (contract
types included) with a name among the given names. -/
def is_base_type (t : Option VType) (names : List String) : Bool :=
  match t with
  | some (.base n _ _ _ _) => names.contains n
  | _ => false

/-- getattr(typ, 'is_literal', False): only base types carry the flag. -/
def VType.isLiteralAttr : Option VType → Bool
  | some (.base _ _ _ l _) => l
  | _ => false

/-- Modelled from the spec: ceil32 (vyper.types, not under src) rounds a byte
count up to the next multiple of the 32-byte word size. -/
def ceil32 (n : Nat) : Nat :=
  if n % 32 = 0 then n else n + 32 - n % 32

/-- Modelled from the spec: DECIMAL_DIVISOR (vyper.utils, not under src), the
fixed-point scaling divisor used for the decimal type. -/
def DECIMAL_DIVISOR : Int := 10000000000

/-- Modelled from the spec: MemoryPositions.FREE_LOOP_INDEX (vyper.utils, not
under src), the reserved scratch slot holding the copy-loop counter.  The
concrete address is immaterial to the claims proved here. -/
def FREE_LOOP_INDEX : Int := 256

mutual

/-- Modelled from the spec: get_size_of_type / word_size (vyper.types, not
under src).  A scalar takes one word; a length-prefixed byte sequence bounded
by max_len takes a length word plus its payload rounded up to whole words plus
one spare word; a list takes element size times count; structs and tuples take
the sum of their member sizes; mappings have no fixed-size representation. -/
def get_size_of_type : VType → Nat
  | .base _ _ _ _ _ => 1
  | .byteArrayT m => ceil32 m / 32 + 2
  | .stringT m => ceil32 m / 32 + 2
  | .listT sub cnt => get_size_of_type sub * cnt
  | .mappingT _ _ => 0
  | .structT _ ms => sizeOfStructMembers ms
  | .tupleT ms => sizeOfTupleMembers ms

def sizeOfStructMembers : List (String × VType) → Nat
  | [] => 0
  | kv :: rest => get_size_of_type kv.2 + sizeOfStructMembers rest

def sizeOfTupleMembers : List VType → Nat
  | [] => 0
  | t :: rest => get_size_of_type t + sizeOfTupleMembers rest

end

/-- Modelled from the spec: SizeLimits.in_bounds (vyper.utils, not under src):
whether a value fits the representable range of the named scalar type
(int128 signed 128-bit, uint256 unsigned 256-bit, decimal an int128 scaled by
the fixed-point divisor); an unknown type name is a fault. -/
def in_bounds (typeStr : String) (v : Int) : Except VyperErr Bool :=
  if typeStr = "decimal" then
    .ok (decide ((-(2 ^ 127)) * DECIMAL_DIVISOR ≤ v ∧ v ≤ (2 ^ 127 - 1) * DECIMAL_DIVISOR))
  else if typeStr = "uint256" then
    .ok (decide (0 ≤ v ∧ v ≤ 2 ^ 256 - 1))
  else if typeStr = "int128" then
    .ok (decide ((-(2 ^ 127)) ≤ v ∧ v ≤ 2 ^ 127 - 1))
  else
    .error (.pythonError "Exception")

/-- Modelled from the spec: are_units_compatible (vyper.types, not under src):
a source base type with no unit annotation, or with exactly the destination
unit, is compatible when the positional annotations agree. -/
def are_units_compatible (x y : VType) : Bool :=
  match x, y with
  | .base _ ux px _ _, .base _ uy py _ _ =>
      (decide (ux = none) || decide (ux = uy)) && decide (px = py)
  | _, _ => false

/-- The value slot of an LLL node: an operation name / symbol, an integer
literal, or Python None. -/
inductive NodeVal where
  | i (n : Int)
  | s (v : String)
  | nullv
deriving Repr, DecidableEq

/-- LLL IR nodes (vyper.parser.lll_node.LLLnode): a value, ordered child
nodes, an optional value type and an optional location tag.  The non-semantic
metadata of the source (annotation text, gas estimate, source position) is not
modelled. -/
inductive LLLnode where
  | mk (value : NodeVal) (args : List LLLnode) (typ : Option VType)
      (loc : Option String)

def LLLnode.value : LLLnode → NodeVal
  | .mk v _ _ _ => v

def LLLnode.args : LLLnode → List LLLnode
  | .mk _ a _ _ => a

def LLLnode.typ : LLLnode → Option VType
  | .mk _ _ t _ => t

def LLLnode.loc : LLLnode → Option String
  | .mk _ _ _ l => l

/-- An operation node built by LLLnode.from_list from a nested list, with no
type and no location. -/
def op (o : String) (args : List LLLnode) : LLLnode :=
  .mk (.s o) args none none

/-- An integer literal node. -/
def num (n : Int) : LLLnode :=
  .mk (.i n) [] none none

/-- A bare symbol node such as a with-bound variable name. -/
def sym (s : String) : LLLnode :=
  .mk (.s s) [] none none

mutual

/-- Whether a tree contains a node whose value is the given operation name. -/
def containsOp (o : String) : LLLnode → Bool
  | .mk v args _ _ =>
    (match v with | .s n => decide (n = o) | _ => false) || containsOpList o args

def containsOpList (o : String) : List LLLnode → Bool
  | [] => false
  | x :: rest => containsOp o x || containsOpList o rest

end

/-- Python range(start, stop, step) for a positive step (the only form the
source uses): empty when stop ≤ start, else one element per step up to but
excluding stop. -/
def pyRange (start stop step : Int) : List Int :=
  if 0 < step then
    (List.range (((stop - start).toNat + (step.toNat - 1)) / step.toNat)).map
      (fun i => start + step * i)
  else []

/-- Python list indexing: negative indices count from the end; anything out of
range raises IndexError. -/
def pyListGet {α : Type} (xs : List α) (i : Int) : Except VyperErr α :=
  let n : Int := xs.length
  let j : Int := if i < 0 then n + i else i
  if 0 ≤ j ∧ j < n then
    match xs.get? j.toNat with
    | some x => .ok x
    | none => .error (.pythonError "IndexError")
  else .error (.pythonError "IndexError")

/-- Unwrap location (parser_utils.unwrap_location). -/
def unwrap_location (orig : LLLnode) : LLLnode :=
  if orig.loc = some "memory" then .mk (.s "mload") [orig] orig.typ none
  else if orig.loc = some "storage" then .mk (.s "sload") [orig] orig.typ none
  else if orig.loc = some "calldata" then .mk (.s "calldataload") [orig] orig.typ none
  else orig

/-- parser_utils.mzero: zero-fill nbytes bytes of memory at dst by copying
from past the end of calldata (reads there deterministically give zeros). -/
def mzero (dst : LLLnode) (nbytes : Int) : LLLnode :=
  op "calldatacopy" [dst, sym "calldatasize", num nbytes]

/-- The maxlen attribute access typ.maxlen of the source: an AttributeError
unless the type is ByteArrayLike. -/
def getMaxlen : Option VType → Except VyperErr Nat
  | some t => if t.isByteArrayLike then .ok t.maxlenOf
              else .error (.pythonError "AttributeError")
  | none => .error (.pythonError "AttributeError")

/-- parser_utils.make_byte_slice_copier: copy a byte slice of at most
max_length bytes from source to destination (gas metadata not modelled). -/
def make_byte_slice_copier (destination source length : LLLnode)
    (max_length : Int) : Except VyperErr LLLnode :=
  -- Special case: memory to memory
  if source.loc = some "memory" ∧ destination.loc = some "memory" then
    .ok (op "with" [sym "_l", num max_length,
      op "pop" [op "call" [num (18 + max_length.fdiv 10), num 4, num 0,
        source, sym "_l", destination, sym "_l"]]])
  else
    let loaderE : Except VyperErr (Option LLLnode) :=
      -- special case: rhs is zero
      if source.value = .nullv then
        if destination.loc = some "memory" then .ok none  -- early return mzero
        else .ok (some (num 0))
      else if source.loc = some "memory" then
        .ok (some (op "mload" [op "add" [sym "_pos",
          op "mul" [num 32, op "mload" [num FREE_LOOP_INDEX]]]]))
      else if source.loc = some "storage" then
        .ok (some (op "sload" [op "add" [sym "_pos",
          op "mload" [num FREE_LOOP_INDEX]]]))
      else .error .compilerPanic
    match loaderE with
    | .error e => .error e
    | .ok none => .ok (mzero destination max_length)
    | .ok (some loader) =>
      let setterE : Except VyperErr LLLnode :=
        if destination.loc = some "memory" then
          .ok (op "mstore" [op "add" [sym "_opos",
            op "mul" [num 32, op "mload" [num FREE_LOOP_INDEX]]], loader])
        else if destination.loc = some "storage" then
          .ok (op "sstore" [op "add" [sym "_opos",
            op "mload" [num FREE_LOOP_INDEX]], loader])
        else .error .compilerPanic
      match setterE with
      | .error e => .error e
      | .ok setter =>
        let checker := op "if" [op "gt" [op "mul" [num 32,
          op "mload" [num FREE_LOOP_INDEX]], sym "_actual_len"], sym "break"]
        let ipos := if source.value = .nullv then num 0 else source
        .ok (op "with" [sym "_pos", ipos,
          op "with" [sym "_opos", destination,
            op "with" [sym "_actual_len", length,
              op "repeat" [num FREE_LOOP_INDEX, num 0,
                num ((max_length + 31).fdiv 32),
                op "seq" [checker, setter]]]]])

/-- parser_utils.make_byte_array_copier: copy one byte array (or string) into
another, or clear the destination when the source is null-valued. -/
def make_byte_array_copier (destination source : LLLnode) :
    Except VyperErr LLLnode :=
  if !(match source.typ with | some t => t.isByteArrayLike | none => false) then
    .error .typeMismatch
  else
    match getMaxlen source.typ, getMaxlen destination.typ with
    | .error e, _ => .error e
    | _, .error e => .error e
    | .ok smax, .ok dmax =>
      if smax > dmax then .error .typeMismatch
      -- stricter check for zeroing a byte array
      else if source.value = .nullv ∧ smax ≠ dmax then .error .typeMismatch
      -- Special case: memory to memory
      else if source.loc = some "memory" ∧ destination.loc = some "memory" then
        .ok (op "with" [sym "_source", source,
          op "with" [sym "_sz", op "add" [num 32, op "mload" [sym "_source"]],
            op "assert" [op "call" [op "add" [num 18, op "div" [sym "_sz", num 10]],
              num 4, num 0, sym "_source", sym "_sz", destination, sym "_sz"]]]])
      else
        let pos_node0 : LLLnode :=
          if source.value = .nullv then source
          else .mk (.s "_pos") [] source.typ source.loc
        -- Get the length
        let lenPosE : Except VyperErr (LLLnode × LLLnode) :=
          if source.value = .nullv then .ok (num 1, pos_node0)
          else if source.loc = some "memory" then
            .ok (op "add" [op "mload" [sym "_pos"], num 32], pos_node0)
          else if source.loc = some "storage" then
            .ok (op "add" [op "sload" [sym "_pos"], num 32],
              .mk (.s "sha3_32") [pos_node0] source.typ source.loc)
          else .error .compilerPanic
        match lenPosE with
        | .error e => .error e
        | .ok (length, pos_node) =>
          let destination' : LLLnode :=
            if destination.loc = some "storage" then
              .mk (.s "sha3_32") [destination] destination.typ destination.loc
            else destination
          -- Maximum theoretical length
          let max_length : Int := if source.value = .nullv then 32 else smax + 32
          match make_byte_slice_copier destination' pos_node length max_length with
          | .error e => .error e
          | .ok copier =>
            .ok (.mk (.s "with") [sym "_pos",
              (if source.value = .nullv then num 0 else source), copier] none none)

/-- isinstance(t, BaseType), contract types included. -/
def isBaseInstance : Option VType → Bool
  | some (.base _ _ _ _ _) => true
  | _ => false

/-- isinstance(t, ContractType). -/
def isContractInstance : Option VType → Bool
  | some (.base _ _ _ _ c) => c
  | _ => false

/-- are_units_compatible lifted to the optional types parser_utils passes
around; only ever truthy on two base types. -/
def areUnitsCompatibleOpt : Option VType → Option VType → Bool
  | some x, some y => are_units_compatible x y
  | _, _ => false

/-- parser_utils.base_type_conversion: convert a value from one base type to
another. -/
def base_type_conversion (orig0 : LLLnode) (frm toT : Option VType)
    (in_function_call : Bool) : Except VyperErr LLLnode :=
  let orig := unwrap_location orig0
  let is_valid_int128_to_decimal :=
    (is_base_type frm ["int128"] && is_base_type toT ["decimal"])
      && areUnitsCompatibleOpt frm toT
  let litCheck : Except VyperErr Unit :=
    match frm with
    | some (.base n fu fp true _) =>
        if n = "int128" ∨ n = "uint256" then
          match orig.value with
          | .i v =>
              match in_bounds n v with
              | .error e => .error e
              | .ok b =>
                  if !b then .error .invalidLiteral
                  -- Special Case: Literals in function calls should always
                  -- convey unit type as well.
                  else if in_function_call then
                    match toT with
                    | some (.base _ tu tp _ _) =>
                        if fu = tu ∧ fp = tp then .ok ()
                        else .error .invalidLiteral
                    | _ => .error (.pythonError "AttributeError")
                  else .ok ()
          | _ => .error (.pythonError "TypeError")
        else .ok ()
    | _ => .ok ()
  match litCheck with
  | .error e => .error e
  | .ok _ =>
    if !(isBaseInstance frm) || !(isBaseInstance toT) then .error .typeMismatch
    else
      match frm, toT with
      | some (.base fn _ _ flit fc), some (.base tn tu tp _ _) =>
        if decide (fn = tn) && areUnitsCompatibleOpt frm toT then
          .ok (.mk orig.value orig.args toT none)
        -- Modelled from the spec: BaseType equality for the contract-to-address
        -- case compares the base kind and its unit annotations.
        else if fc && (decide (tn = "address") && decide (tu = none) && !tp) then
          .ok (.mk orig.value orig.args toT none)
        else if is_valid_int128_to_decimal then
          .ok (.mk (.s "mul") [orig, num DECIMAL_DIVISOR]
            (some (.base "decimal" tu tp false false)) none)
        -- Integer literal conversion.
        else if decide (fn = "int128") && decide (tn = "uint256") && flit then
          .ok (.mk orig.value orig.args toT none)
        else .error .typeMismatch
      | _, _ => .error .typeMismatch

/-- The key argument of add_variable_offset: a raw Python string (struct
member), a raw int (tuple member) or an LLL node (mapping key / list index). -/
inductive VKey where
  | s (k : String)
  | i (k : Int)
  | node (k : LLLnode)

/-- parser_utils.add_variable_offset: take a value representing a memory or
storage location and descend down to an element or member variable.  A Python
implicit return of None (the fall-through of the mapping branch for locations
other than storage, memory and calldata) is Except.ok Option.none. -/
def add_variable_offset (parent : LLLnode) (key : VKey)
    (array_bounds_check : Bool) : Except VyperErr (Option LLLnode) :=
  let location := parent.loc
  match parent.typ with
  | some (.structT _ members) =>
    match key with
    | .s k =>
      let keys := members.map Prod.fst
      if !(keys.contains k) then .error .typeMismatch
      else
        match members.lookup k with
        | none => .error (.pythonError "KeyError")
        | some subtype =>
          -- the second containment check of the source, kept verbatim
          if !(keys.contains k) then .error .typeMismatch
          else
            let index : Int := keys.indexOf k
            if location = some "storage" then
              .ok (some (.mk (.s "add") [op "sha3_32" [parent], num index]
                (some subtype) (some "storage")))
            else if location = some "storage_prehashed" then
              .ok (some (.mk (.s "add") [parent, num index]
                (some subtype) (some "storage")))
            else if location = some "calldata" ∨ location = some "memory" then
              -- offset = sum of 32 * get_size_of_type over the members before
              -- the key, in member order
              let offset : Int :=
                ((members.take index.toNat).map
                  (fun kv => 32 * (get_size_of_type kv.2 : Int))).sum
              match members.lookup k with
              | none => .error (.pythonError "KeyError")
              | some mt =>
                .ok (some (.mk (.s "add") [num offset, parent] (some mt) location))
            else .error .typeMismatch
    | _ => .error .typeMismatch
  | some (.tupleT members) =>
    match key with
    | .i k =>
      -- the tuple branch never binds subtype, so the storage and
      -- storage_prehashed returns fault on the unbound local
      let index : Int := k
      if location = some "storage" then
        .error (.pythonError "UnboundLocalError")
      else if location = some "storage_prehashed" then
        .error (.pythonError "UnboundLocalError")
      else if location = some "calldata" ∨ location = some "memory" then
        -- attrs is range(len(members)); attrs[i] faults past the end
        if index ≤ (members.length : Int) then
          let offset : Int :=
            ((members.take index.toNat).map
              (fun t => 32 * (get_size_of_type t : Int))).sum
          match pyListGet members k with
          | .error e => .error e
          | .ok mt =>
            .ok (some (.mk (.s "add") [num offset, parent] (some mt) location))
        else .error (.pythonError "IndexError")
      else .error .typeMismatch
    | _ => .error .typeMismatch
  | some (.mappingT keytype valuetype) =>
    match key with
    | .node keyN =>
      let subE : Except VyperErr LLLnode :=
        if (match keyN.typ with | some t => t.isByteArrayLike | none => false) then
          if !keytype.isByteArrayLike
              ∨ keytype.maxlenOf < (match keyN.typ with
                  | some t => t.maxlenOf | none => 0) then
            .error .typeMismatch
          else
            match pyListGet keyN.args 0 with
            | .error e => .error e
            | .ok a0 =>
              if a0.args.length ≥ 3 then  -- handle bytes literal
                match pyListGet a0.args (-1) with
                | .error e => .error e
                | .ok last =>
                  .ok (op "seq" [keyN,
                    op "sha3" [op "add" [last, num 32], op "mload" [last]]])
              else
                .ok (op "sha3" [op "add" [.mk a0.value [] none none, num 32],
                  op "mload" [.mk a0.value [] none none]])
        else
          base_type_conversion keyN keyN.typ (some keytype) false
      match subE with
      | .error e => .error e
      | .ok sub =>
        if location = some "storage" then
          .ok (some (.mk (.s "sha3_64") [parent, sub]
            (some valuetype) (some "storage")))
        else if location = some "memory" ∨ location = some "calldata" then
          .error .typeMismatch
        else .ok none
    | _ => .error (.pythonError "AttributeError")
  | some (.listT subtype count) =>
    match key with
    | .node keyN =>
      let k := unwrap_location keyN
      if !(is_base_type keyN.typ ["int128", "uint256"]) then .error .typeMismatch
      else
        let subE : Except VyperErr LLLnode :=
          if !array_bounds_check then .ok k
          else if VType.isLiteralAttr keyN.typ then
            -- perform the check at compile time and elide the runtime check
            match keyN.value with
            | .i v =>
              if v < 0 ∨ v ≥ (count : Int) then .error .arrayIndex else .ok k
            | _ => .error (.pythonError "TypeError")
          else .ok (op "uclamplt" [k, num count])
        match subE with
        | .error e => .error e
        | .ok sub =>
          if location = some "storage" then
            .ok (some (.mk (.s "add") [op "sha3_32" [parent], sub]
              (some subtype) (some "storage")))
          else if location = some "storage_prehashed" then
            .ok (some (.mk (.s "add") [parent, sub]
              (some subtype) (some "storage")))
          else if location = some "calldata" ∨ location = some "memory" then
            let offset : Int := 32 * (get_size_of_type subtype : Int)
            .ok (some (.mk (.s "add") [op "mul" [num offset, sub], parent]
              (some subtype) location))
          else .error .typeMismatch
    | _ => .error (.pythonError "AttributeError")
  | _ => .error .typeMismatch

/-- A Python value that is either a raw int or an LLL node (the begin_pos and
_size arguments of make_return_stmt). -/
inductive PyArg where
  | int (n : Int)
  | node (x : LLLnode)

/-- Raw ints embed into LLL lists as integer literal nodes. -/
def PyArg.toNode : PyArg → LLLnode
  | .int n => num n
  | .node x => x

/-- parser_utils.make_return_stmt.  The context fields it reads are passed
explicitly; nonreentrant_post is the reentrancy-guard release code obtained
from get_nonreentrant_lock (vyper.parser.function_definitions.utils, not under
src), passed through opaquely exactly as the source does;
loop_memory_position is the scratch slot returned by the context allocator. -/
def make_return_stmt (is_private : Bool) (callback_ptr : Int)
    (method_id lineno col_offset : Nat) (nonreentrant_post : List LLLnode)
    (loop_memory_position : Int) (begin_pos size_arg : PyArg) : LLLnode :=
  if is_private then
    -- Make label for stack push loop.
    let label_id := toString method_id ++ "_" ++ toString lineno ++ "_"
      ++ toString col_offset
    let exit_label := "make_return_loop_exit_" ++ label_id
    let start_label := "make_return_loop_start_" ++ label_id
    match begin_pos, size_arg with
    | .int b, .int s =>
      -- static values, unroll the mloads instead
      let mloads := (pyRange b s 32).map (fun p => op "mload" [num p])
      .mk (.s "seq_unchecked") (mloads ++ nonreentrant_post
        ++ [op "jump" [op "mload" [num callback_ptr]]]) none none
    | bp, sz =>
      let mloads := op "seq_unchecked" [
        op "mstore" [num loop_memory_position, sz.toNode],
        op "label" [sym start_label],
        -- maybe exit loop / break
        op "if" [op "le" [op "mload" [num loop_memory_position], num 0],
          op "goto" [sym exit_label]],
        -- push onto stack
        op "mload" [op "add" [bp.toNode,
          op "sub" [op "mload" [num loop_memory_position], num 32]]],
        -- decrement i by 32
        op "mstore" [num loop_memory_position,
          op "sub" [op "mload" [num loop_memory_position], num 32]],
        op "goto" [sym start_label],
        op "label" [sym exit_label]]
      .mk (.s "seq_unchecked") ([mloads] ++ nonreentrant_post
        ++ [op "jump" [op "mload" [num callback_ptr]]]) none none
  else
    .mk (.s "seq_unchecked") (nonreentrant_post
      ++ [op "return" [begin_pos.toNode, size_arg.toNode]]) none none

/-- Python substring containment needle in hay, as used by the int-range
check of make_setter. -/
def strContains (needle hay : String) : Bool :=
  (List.range (hay.length + 1)).any (fun i => needle.isPrefixOf (hay.drop i))

/-- A Python None appended into an LLL list becomes a null-valued node;
otherwise the node itself is used. -/
def optNode : Option LLLnode → LLLnode
  | some n => n
  | none => .mk .nullv [] none none

/-- LLLnode.from_list(None, typ=t): a null-valued node of the given type. -/
def nullNode (t : Option VType) : LLLnode := .mk .nullv [] t none

/-- LLLnode.from_list(i, typ='int128'): a literal index node; from_list
canonicalizes the string type name into a plain BaseType. -/
def intNode (i : Int) : LLLnode :=
  .mk (.i i) [] (some (.base "int128" none false false false)) none

/-- parser_utils.make_setter: create an x=y statement where the types may be
compound.  The fuel argument models the Python recursion limit
(RecursionError when exhausted); every run of the source that terminates is
reproduced by any sufficiently large fuel. -/
def make_setter (fuelA : Nat) (leftA rightA : LLLnode)
    (locationA : Option String) (ifcA : Bool) :
    Except VyperErr (Option LLLnode) :=
  match fuelA, leftA, rightA, locationA, ifcA with
  | 0, _, _, _, _ => .error (.pythonError "RecursionError")
  | Nat.succ fuel, left, right, location, in_function_call =>
    match left.typ with
    -- Basic types
    | some (.base bn _ _ _ _) =>
      match base_type_conversion right right.typ left.typ in_function_call with
      | .error e => .error e
      | .ok right1 =>
        let intCheck : Except VyperErr Unit :=
          if strContains "int" bn then
            match right1.value with
            | .i v =>
              match in_bounds bn v with
              | .error e => .error e
              | .ok b => if !b then .error .invalidLiteral else .ok ()
            | _ => .ok ()
          else .ok ()
        match intCheck with
        | .error e => .error e
        | .ok _ =>
          let right2 := if right1.value = .nullv then
            LLLnode.mk (.i 0) right1.args right1.typ right1.loc else right1
          if location = some "storage" then
            .ok (some (op "sstore" [left, right2]))
          else if location = some "memory" then
            .ok (some (op "mstore" [left, right2]))
          else .ok none
    -- Byte arrays
    | some (.byteArrayT _) =>
      match make_byte_array_copier left right with
      | .error e => .error e
      | .ok n => .ok (some n)
    | some (.stringT _) =>
      match make_byte_array_copier left right with
      | .error e => .error e
      | .ok n => .ok (some n)
    -- Cannot copy mappings
    | some (.mappingT _ _) => .error .typeMismatch
    -- Arrays
    | some (.listT lsub lcnt) =>
      -- Cannot do something like [a, b, c] = [1, 2, 3]
      if left.value = .s "multi" then .error (.pythonError "Exception")
      else
        match right.typ with
        | some (.listT _ rcnt) =>
          if rcnt ≠ lcnt then .error .typeMismatch
          else
            let pre := left.loc = some "storage"
            let left1 : LLLnode := if pre then
              .mk (.s "sha3_32") [left] left.typ (some "storage_prehashed")
              else left
            let left_token : LLLnode := .mk (.s "_L") [] left.typ
              (if pre then some "storage_prehashed" else left.loc)
            -- If the right side is a literal
            if right.value = .s "multi" then
              match (List.range lcnt).mapM (fun i => show Except VyperErr LLLnode from
                match add_variable_offset left_token (.node (intNode i)) false with
                | .error e => .error e
                | .ok none => .error (.pythonError "AttributeError")
                | .ok (some l_i) =>
                  match pyListGet right.args (i : Int) with
                  | .error e => .error e
                  | .ok r_i =>
                    match make_setter fuel l_i r_i location false with
                    | .error e => .error e
                    | .ok r => .ok (optNode r)) with
              | .error e => .error e
              | .ok subs =>
                .ok (some (op "with" [sym "_L", left1,
                  .mk (.s "seq") subs none none]))
            else if right.value = .nullv then
              if left1.loc = some "memory" then
                .ok (some (mzero left1
                  (32 * (get_size_of_type (.listT lsub lcnt) : Int))))
              else
                match (List.range lcnt).mapM (fun i => show Except VyperErr LLLnode from
                  match add_variable_offset left_token (.node (intNode i)) false with
                  | .error e => .error e
                  | .ok none => .error (.pythonError "AttributeError")
                  | .ok (some l_i) =>
                    match make_setter fuel l_i (nullNode (some lsub))
                        location false with
                    | .error e => .error e
                    | .ok r => .ok (optNode r)) with
                | .error e => .error e
                | .ok subs =>
                  .ok (some (op "with" [sym "_L", left1,
                    .mk (.s "seq") subs none none]))
            -- If the right side is a variable
            else
              let right_token : LLLnode := .mk (.s "_R") [] right.typ right.loc
              match (List.range lcnt).mapM (fun i => show Except VyperErr LLLnode from
                match add_variable_offset left_token (.node (intNode i)) false with
                | .error e => .error e
                | .ok none => .error (.pythonError "AttributeError")
                | .ok (some l_i) =>
                  match add_variable_offset right_token (.node (intNode i)) false with
                  | .error e => .error e
                  | .ok none => .error (.pythonError "AttributeError")
                  | .ok (some r_i) =>
                    match make_setter fuel l_i r_i location false with
                    | .error e => .error e
                    | .ok r => .ok (optNode r)) with
              | .error e => .error e
              | .ok subs =>
                .ok (some (op "with" [sym "_L", left1, op "with" [sym "_R",
                  right, .mk (.s "seq") subs none none]]))
        | _ => .error .typeMismatch
    -- Structs
    | some (.structT lname lmembers) =>
      if left.value = .s "multi" then .error (.pythonError "Exception")
      else
        let preChecks : Except VyperErr Unit :=
          if right.value ≠ .nullv then
            match right.typ with
            | some (.structT rname rmembers) =>
              match right.args.find? (fun k => decide (k.value = .nullv)) with
              | some _ => .error .compilerPanic
              | none =>
                let lkeys := lmembers.map Prod.fst
                let rkeys := rmembers.map Prod.fst
                match lkeys.find? (fun k => !(rkeys.contains k)) with
                | some _ => .error .typeMismatch
                | none =>
                  match rkeys.find? (fun k => !(lkeys.contains k)) with
                  | some _ => .error .typeMismatch
                  | none =>
                    if lname ≠ rname then .error .typeMismatch else .ok ()
            | _ => .error .typeMismatch
          else .ok ()
        match preChecks with
        | .error e => .error e
        | .ok _ =>
          let pre := left.loc = some "storage"
          let left1 : LLLnode := if pre then
            .mk (.s "sha3_32") [left] left.typ (some "storage_prehashed")
            else left
          let left_token : LLLnode := .mk (.s "_L") [] left.typ
            (if pre then some "storage_prehashed" else left.loc)
          let keyz : List String := lmembers.map Prod.fst
          let locations : List (Option String) :=
            if left.value = .s "multi" then left.args.map LLLnode.loc
            else keyz.map (fun _ => location)
          -- If the right side is a literal
          if right.value = .s "multi" then
            if right.args.length ≠ keyz.length then .error .typeMismatch
            else
              match ((keyz.zip locations).enum.mapM (fun p => show Except VyperErr LLLnode from
                match add_variable_offset left_token (.s p.2.1) true with
                | .error e => .error e
                | .ok none => .error (.pythonError "AttributeError")
                | .ok (some l_i) =>
                  match pyListGet right.args (p.1 : Int) with
                  | .error e => .error e
                  | .ok r_i =>
                    match make_setter fuel l_i r_i p.2.2 false with
                    | .error e => .error e
                    | .ok r => .ok (optNode r))) with
              | .error e => .error e
              | .ok subs =>
                .ok (some (op "with" [sym "_L", left1,
                  .mk (.s "seq") subs none none]))
          -- If the right side is a null
          else if right.value = .nullv then
            if left1.loc = some "memory" then
              .ok (some (mzero left1
                (32 * (get_size_of_type (.structT lname lmembers) : Int))))
            else
              match ((keyz.zip locations).mapM (fun p => show Except VyperErr LLLnode from
                match add_variable_offset left_token (.s p.1) true with
                | .error e => .error e
                | .ok none => .error (.pythonError "AttributeError")
                | .ok (some l_i) =>
                  match lmembers.lookup p.1 with
                  | none => .error (.pythonError "KeyError")
                  | some mt =>
                    match make_setter fuel l_i (nullNode (some mt)) p.2 false with
                    | .error e => .error e
                    | .ok r => .ok (optNode r))) with
              | .error e => .error e
              | .ok subs =>
                .ok (some (op "with" [sym "_L", left1,
                  .mk (.s "seq") subs none none]))
          -- If the right side is a variable
          else
            let right_token : LLLnode := .mk (.s "_R") [] right.typ right.loc
            match ((keyz.zip locations).mapM (fun p => show Except VyperErr LLLnode from
              match add_variable_offset left_token (.s p.1) true with
              | .error e => .error e
              | .ok none => .error (.pythonError "AttributeError")
              | .ok (some l_i) =>
                match add_variable_offset right_token (.s p.1) true with
                | .error e => .error e
                | .ok none => .error (.pythonError "AttributeError")
                | .ok (some r_i) =>
                  match make_setter fuel l_i r_i p.2 false with
                  | .error e => .error e
                  | .ok r => .ok (optNode r))) with
            | .error e => .error e
            | .ok subs =>
              .ok (some (op "with" [sym "_L", left1, op "with" [sym "_R",
                right, .mk (.s "seq") subs none none]]))
    -- Tuples
    | some (.tupleT lmembers) =>
      let preChecks : Except VyperErr Unit :=
        if right.value ≠ .nullv then
          match right.typ with
          | some (.tupleT rmembers) =>
            if lmembers.length ≠ rmembers.length then .error .typeMismatch
            else .ok ()
          | _ => .error .typeMismatch
        else .ok ()
      match preChecks with
      | .error e => .error e
      | .ok _ =>
        let pre := left.loc = some "storage"
        let left1 : LLLnode := if pre then
          .mk (.s "sha3_32") [left] left.typ (some "storage_prehashed")
          else left
        let left_token : LLLnode := .mk (.s "_L") [] left.typ
          (if pre then some "storage_prehashed" else left.loc)
        let keyz : List Nat := List.range lmembers.length
        let locations : List (Option String) :=
          if left.value = .s "multi" then left.args.map LLLnode.loc
          else keyz.map (fun _ => location)
        -- If the right side is a literal
        if right.value = .s "multi" then
          if right.args.length ≠ keyz.length then .error .typeMismatch
          else
            match ((keyz.zip locations).enum.mapM (fun p => show Except VyperErr LLLnode from
              match add_variable_offset left_token (.i (p.2.1 : Int)) true with
              | .error e => .error e
              | .ok none => .error (.pythonError "AttributeError")
              | .ok (some l_i) =>
                match pyListGet right.args (p.1 : Int) with
                | .error e => .error e
                | .ok r_i =>
                  match make_setter fuel l_i r_i p.2.2 false with
                  | .error e => .error e
                  | .ok r => .ok (optNode r))) with
            | .error e => .error e
            | .ok subs =>
              .ok (some (op "with" [sym "_L", left1,
                .mk (.s "seq") subs none none]))
        -- If the right side is a null
        else if right.value = .nullv then
          if left1.loc = some "memory" then
            .ok (some (mzero left1
              (32 * (get_size_of_type (.tupleT lmembers) : Int))))
          else
            match ((keyz.zip locations).mapM (fun p => show Except VyperErr LLLnode from
              match add_variable_offset left_token (.i (p.1 : Int)) true with
              | .error e => .error e
              | .ok none => .error (.pythonError "AttributeError")
              | .ok (some l_i) =>
                match pyListGet lmembers (p.1 : Int) with
                | .error e => .error e
                | .ok mt =>
                  match make_setter fuel l_i (nullNode (some mt)) p.2 false with
                  | .error e => .error e
                  | .ok r => .ok (optNode r))) with
            | .error e => .error e
            | .ok subs =>
              .ok (some (op "with" [sym "_L", left1,
                .mk (.s "seq") subs none none]))
        -- If tuple assign: the packed positional-tuple unpacking branch.
        -- (For a tuple-typed left the preChecks above already forced the
        -- non-null right to be tuple-typed, so the source condition
        -- isinstance(left.typ, TupleType) and isinstance(right.typ, TupleType)
        -- holds and the trailing variable branch is unreachable.)
        else
          let rmembers := match right.typ with
            | some (.tupleT ms) => ms
            | _ => []
          match left.args.find? (fun a => decide (a.loc = some "calldata")) with
          | some _ => .error .constancyViolation
          | none =>
            let zipped := left.args.zip (rmembers.zip locations)
            match (zipped.foldlM (fun (acc : Int × List LLLnode) item => show Except VyperErr (Int × List LLLnode) from
              let ctr := acc.1
              let left_arg := item.1
              let right_arg := item.2.1
              let loc := item.2.2
              let offsetE : Except VyperErr (LLLnode × Int) :=
                if right_arg.isByteArrayLike then
                  let rt : VType := if right_arg.isByteArrayType then
                    .byteArrayT right_arg.maxlenOf else .stringT right_arg.maxlenOf
                  .ok (.mk (.s "add") [sym "_R",
                    op "mload" [op "add" [sym "_R", num ctr]]]
                    (some rt) (some "memory"), ctr + 32)
                else
                  -- typ=right_arg.typ reads the name attribute of a base
                  -- type, which from_list turns back into a plain BaseType
                  match right_arg with
                  | .base n _ _ _ _ =>
                    .ok (.mk (.s "mload") [op "add" [sym "_R", num ctr]]
                      (some (.base n none false false false)) none,
                      ctr + (get_size_of_type right_arg : Int) * 32)
                  | _ => .error (.pythonError "AttributeError")
              match offsetE with
              | .error e => .error e
              | .ok (offNode, ctr1) =>
                match make_setter fuel left_arg offNode loc false with
                | .error e => .error e
                | .ok r => .ok (ctr1, acc.2 ++ [optNode r])) ((0 : Int), [])) with
            | .error e => .error e
            | .ok acc =>
              .ok (some (op "with" [sym "_R", right,
                .mk (.s "seq") acc.2 none none]))
    | _ => .error (.pythonError "Exception")
termination_by structural fuelA

/-! ## Runtime semantics for the emitted code fragments under study -/

/-- Byte-addressed volatile memory of the target machine. -/
def Mem : Type := Int → Int

/-- The read-only calldata input region: size bytes of content.  Reads at or
past the end deterministically yield zero, the Yellow Paper CALLDATACOPY
behaviour the mzero comment of the source relies on. -/
structure Calldata where
  size : Nat
  data : Int → Int

def Calldata.byteAt (cd : Calldata) (i : Int) : Int :=
  if 0 ≤ i ∧ i < (cd.size : Int) then cd.data i else 0

/-- An evaluator for the fragment of LLL emitted by the byte-clearing code
under study: integer literals, with-bound symbols, add, mul, calldatasize and
calldatacopy.  It returns the value of the expression together with the
updated memory, or none on an unsupported node; fuel bounds recursion. -/
def evalLLL : Nat → LLLnode → List (String × Int) → Calldata → Mem →
    Option (Int × Mem)
  | 0, _, _, _, _ => none
  | Nat.succ _, .mk (.i n) [] _ _, _, _, mem => some (n, mem)
  | Nat.succ fuel, .mk (.s o) args _ _, env, cd, mem =>
    (match o, args with
    | "calldatasize", [] => some (((cd.size : Nat) : Int), mem)
    | "with", [v, e, body] =>
      (match v.value with
      | .s nm =>
        (match evalLLL fuel e env cd mem with
        | some p => evalLLL fuel body ((nm, p.1) :: env) cd p.2
        | none => none)
      | _ => none)
    | "add", [a, b] =>
      (match evalLLL fuel a env cd mem with
      | some p =>
        (match evalLLL fuel b env cd p.2 with
        | some q => some (p.1 + q.1, q.2)
        | none => none)
      | none => none)
    | "mul", [a, b] =>
      (match evalLLL fuel a env cd mem with
      | some p =>
        (match evalLLL fuel b env cd p.2 with
        | some q => some (p.1 * q.1, q.2)
        | none => none)
      | none => none)
    | "calldatacopy", [dstE, srcE, nE] =>
      (match evalLLL fuel dstE env cd mem with
      | some p =>
        (match evalLLL fuel srcE env cd p.2 with
        | some q =>
          (match evalLLL fuel nE env cd q.2 with
          | some r =>
            some (0, fun a => if p.1 ≤ a ∧ a < p.1 + r.1
              then cd.byteAt (q.1 + (a - p.1)) else r.2 a)
          | none => none)
        | none => none)
      | none => none)
    | nm, [] => (env.lookup nm).map (fun vv => (vv, mem))
    | _, _ => none)
  | _, _, _, _, _ => none

/-- Modelled from the spec: the runtime behaviour of the uclamplt LLL
primitive emitted for non-constant list indices (assembled outside this
layer): the operand word passes through when it is unsigned-less-than the
bound, and execution aborts otherwise. -/
def uclampltSem (bound : Nat) (w : Nat) : Option Nat :=
  if w < bound then some w else none

/-- The push sequence the specification describes for the constant-offset
private-function epilogue: one memory load per 32-byte word of the encoded
region from offset to offset + size, pushed in reverse order, last word
first. -/
def claimedUnrolledPushes (offset size : Int) : List LLLnode :=
  ((pyRange offset (offset + size) 32).reverse).map (fun p => op "mload" [num p])

/-! ## Claims -/

/-- C5: the tuple branch of add_variable_offset computes attrs, index and the
annotation but never binds subtype, so the storage return path faults on the
unbound local instead of returning add(sha3_32(parent), index) as specified:
descending into member 0 of a storage tuple of two int128 raises
UnboundLocalError. -/
theorem C5_tuple_storage_unbound_local :
    add_variable_offset
      (.mk (.i 0) []
        (some (.tupleT [.base "int128" none false false false,
          .base "int128" none false false false])) (some "storage"))
      (.i 0) true = .error (.pythonError "UnboundLocalError") := rfl

/-- The guard-release code used for concrete epilogue evaluations. -/
def C2post : List LLLnode := [sym "nonreentrant_release"]

/-- C2: in the private epilogue with constant offset 320 and size 64, the
source iterates range(begin_pos, _size, 32) — treating the size as an end
address — so it emits no memory load at all, while the specified behaviour
is two pushes covering [320, 384) in reverse order (mload 352, then
mload 320). -/
theorem C2_unrolled_push_region :
    (make_return_stmt true 480 0 1 1 C2post 448 (.int 320) (.int 64)).args
      = C2post ++ [op "jump" [op "mload" [num 480]]]
    ∧ claimedUnrolledPushes 320 64
      = [op "mload" [num 352], op "mload" [num 320]] := ⟨rfl, rfl⟩

/-- C4 counterexample: base_type_conversion converts the int128 literal -5 to
uint256 without raising, although -5 is outside the destination type's
representable bounds: the literal range check of the source tests the
literal's own type, not the destination's. -/
theorem C4_counterexample_int128_literal_to_uint256 :
    base_type_conversion (.mk (.i (-5)) [] none none)
      (some (.base "int128" none false true false))
      (some (.base "uint256" none false false false)) false
      = .ok (.mk (.i (-5)) [] (some (.base "uint256" none false false false)) none)
    ∧ in_bounds "uint256" (-5) = .ok false := ⟨rfl, rfl⟩

/-- C4 (amended): for a literal integer operand of type int128 or uint256,
base_type_conversion range-checks the literal value against the bounds of the
literal's own type and raises InvalidLiteralException when it does not fit,
never truncating; and with in_function_call set, a literal whose unit or
positional annotation differs from the (base-typed) destination's is also
rejected with InvalidLiteralException. -/
theorem C4_literal_range_checks (orig : LLLnode) (fn : String)
    (fu : Option String) (fp : Bool) (fc : Bool) (toT : Option VType)
    (ifc : Bool) (v : Int)
    (hfn : fn = "int128" ∨ fn = "uint256")
    (hval : (unwrap_location orig).value = .i v) :
    (in_bounds fn v = .ok false →
      base_type_conversion orig (some (.base fn fu fp true fc)) toT ifc
        = .error .invalidLiteral)
    ∧ (∀ tn tu tp tl tc, in_bounds fn v = .ok true → ifc = true →
        toT = some (.base tn tu tp tl tc) → ¬(fu = tu ∧ fp = tp) →
        base_type_conversion orig (some (.base fn fu fp true fc)) toT ifc
          = .error .invalidLiteral) := by
  constructor
  · intro hb
    simp only [base_type_conversion, hval, hb]
    rcases hfn with h | h <;> subst h <;> simp
  · intro tn tu tp tl tc hb hifc htoT hne
    subst hifc; subst htoT
    simp only [base_type_conversion, hval, hb]
    rcases hfn with h | h <;> subst h <;> simp [hne]

/-- C4 witness: the out-of-range int128 literal 2^200 is rejected with
InvalidLiteralException. -/
theorem C4_literal_range_checks_witness :
    base_type_conversion (.mk (.i (2 ^ 200)) [] none none)
      (some (.base "int128" none false true false))
      (some (.base "int128" none false false false)) false
      = .error .invalidLiteral :=
  (C4_literal_range_checks (.mk (.i (2 ^ 200)) [] none none) "int128" none false
    false (some (.base "int128" none false false false)) false (2 ^ 200)
    (Or.inl rfl) rfl).1 rfl

/-- C1 (amended): assigning a null source to a memory-located byte array
emits a pure 32-byte zero-fill of exactly the length word — not of the whole
static maximum length: make_setter delegates to make_byte_array_copier, the
emitted tree contains no load of any source location and no copy loop, and
running it zeroes precisely the bytes from the destination address to
address + 32 (so the stored length word becomes 0) while leaving every other
byte, the payload included, unchanged. -/
theorem C1_null_memory_clear (d : Int) (m : Nat) (mem : Mem) (cd : Calldata) :
    ∃ node : LLLnode,
      make_byte_array_copier
        (.mk (.i d) [] (some (.byteArrayT m)) (some "memory"))
        (nullNode (some (.byteArrayT m))) = .ok node
      ∧ make_setter 1 (.mk (.i d) [] (some (.byteArrayT m)) (some "memory"))
          (nullNode (some (.byteArrayT m))) (some "memory") false
          = .ok (some node)
      ∧ containsOp "mload" node = false ∧ containsOp "sload" node = false
      ∧ containsOp "calldataload" node = false
      ∧ containsOp "repeat" node = false
      ∧ ∃ memF, evalLLL 9 node [] cd mem = some (0, memF)
          ∧ ∀ a : Int, memF a = if d ≤ a ∧ a < d + 32 then 0 else mem a := by
  have h1 : make_byte_array_copier
      (.mk (.i d) [] (some (.byteArrayT m)) (some "memory"))
      (nullNode (some (.byteArrayT m)))
      = .ok (.mk (.s "with") [sym "_pos", num 0,
          op "calldatacopy" [.mk (.i d) [] (some (.byteArrayT m)) (some "memory"),
            sym "calldatasize", num 32]] none none) := by
    simp [make_byte_array_copier, getMaxlen, nullNode, make_byte_slice_copier,
      mzero, VType.isByteArrayLike, VType.maxlenOf, LLLnode.value, LLLnode.typ,
      LLLnode.loc]
  refine ⟨_, h1, ?_, ?_, ?_, ?_, ?_, ?_⟩
  · have h1' : make_byte_array_copier
        (.mk (.i d) [] (some (.byteArrayT m)) (some "memory"))
        (.mk .nullv [] (some (.byteArrayT m)) none)
        = .ok (.mk (.s "with") [sym "_pos", num 0,
            op "calldatacopy" [.mk (.i d) [] (some (.byteArrayT m)) (some "memory"),
              sym "calldatasize", num 32]] none none) := h1
    simp [make_setter, h1', LLLnode.typ, nullNode]
  · rfl
  · rfl
  · rfl
  · rfl
  · refine ⟨fun a => if d ≤ a ∧ a < d + 32
      then cd.byteAt ((cd.size : Int) + (a - d)) else mem a, ?_, ?_⟩
    · rfl
    · intro a
      by_cases h : d ≤ a ∧ a < d + 32
      · simp only [if_pos h, Calldata.byteAt]
        rw [if_neg]
        omega
      · simp [if_neg h]

/-- All-sevens initial memory for the C1 counterexample. -/
def C1mem0 : Mem := fun _ => 7

/-- Empty calldata for the C1 counterexample. -/
def C1cd0 : Calldata := ⟨0, fun _ => 0⟩

/-- The byte at address 132 — the first payload byte of a bytes[32]
destination at address 100 — after running the code emitted for a null
assignment to that destination. -/
def C1payloadByteAfterClear : Option Int :=
  match make_byte_array_copier
      (.mk (.i 100) [] (some (.byteArrayT 32)) (some "memory"))
      (nullNode (some (.byteArrayT 32))) with
  | .ok node => (evalLLL 9 node [] C1cd0 C1mem0).map (fun r => r.2 132)
  | .error _ => none

/-- C1 counterexample: clearing a bytes[32] destination in memory at address
100 leaves the payload byte at address 132 equal to its old value 7, so the
emitted zero-fill does not cover the destination's static maximum length and
payload bytes are not all zero. -/
theorem C1_counterexample_payload_not_zeroed :
    C1payloadByteAfterClear = some 7 ∧ (7 : Int) ≠ 0 := ⟨rfl, by decide⟩

/-- C6: in every branch of make_return_stmt — the unrolled private epilogue,
the counted-loop private epilogue, and the public epilogue — the emitted
sequence is some prefix, then the reentrancy-guard release code, then as the
very last item the control transfer (the indirect jump through the
callback-pointer slot for private functions, the native return otherwise), so
no exit path emitted by this function omits the guard release and the release
always precedes the final transfer. -/
theorem C6_guard_release_before_exit (is_private : Bool) (callback_ptr : Int)
    (method_id lineno col_offset : Nat) (post : List LLLnode)
    (lmp : Int) (bp sz : PyArg) :
    ∃ pre last,
      (make_return_stmt is_private callback_ptr method_id lineno col_offset
        post lmp bp sz).args = pre ++ post ++ [last]
      ∧ (last = op "jump" [op "mload" [num callback_ptr]]
         ∨ last = op "return" [bp.toNode, sz.toNode]) := by
  cases is_private with
  | false => exact ⟨[], _, rfl, Or.inr rfl⟩
  | true =>
    cases bp with
    | int b =>
      cases sz with
      | int s => exact ⟨_, _, rfl, Or.inl rfl⟩
      | node x => exact ⟨_, _, rfl, Or.inl rfl⟩
    | node y =>
      cases sz with
      | int s => exact ⟨_, _, rfl, Or.inl rfl⟩
      | node x => exact ⟨_, _, rfl, Or.inl rfl⟩

/-- C9: for a base-typed destination, make_setter emits a store node only for
the storage and memory locations (an sstore and an mstore respectively), and
for every other location value a run that does not raise falls through and
returns Python None — the invalid store target is silently dropped. -/
theorem C9_base_store_only_for_storage_or_memory
    (fuel : Nat) (lv : NodeVal) (largs : List LLLnode)
    (bn : String) (bu : Option String) (bpos blit bcon : Bool)
    (lloc : Option String) (right : LLLnode) (location : Option String)
    (ifc : Bool) :
    (∀ nd, make_setter (fuel + 1)
        (.mk lv largs (some (.base bn bu bpos blit bcon)) lloc) right
        location ifc = .ok (some nd) →
      ((location = some "storage" ∧ nd.value = .s "sstore")
        ∨ (location = some "memory" ∧ nd.value = .s "mstore")))
    ∧ (location ≠ some "storage" → location ≠ some "memory" →
        ∀ x, make_setter (fuel + 1)
          (.mk lv largs (some (.base bn bu bpos blit bcon)) lloc) right
          location ifc = .ok x → x = none) := by
  constructor
  · intro nd h
    simp only [make_setter, LLLnode.typ] at h
    repeat' split at h
    all_goals (try cases h)
    all_goals simp_all [op, LLLnode.value]
  · intro h1 h2 x h
    simp only [make_setter, LLLnode.typ] at h
    repeat' split at h
    all_goals simp_all [op, LLLnode.value]

/-- The base-typed destination of the C9 witness. -/
def C9leftC : LLLnode :=
  .mk (.i 64) [] (some (.base "int128" none false false false)) none

/-- The literal source of the C9 witness. -/
def C9rightC : LLLnode :=
  .mk (.i 5) [] (some (.base "int128" none false true false)) none

/-- The store node make_setter emits for the C9 witness. -/
def C9ndC : LLLnode :=
  op "sstore" [C9leftC,
    .mk (.i 5) [] (some (.base "int128" none false false false)) none]

/-- C9 witness: with a storage location the emitted node is an sstore, and on
a calldata location the same assignment falls through to Python None. -/
theorem C9_base_store_witness :
    ((some "storage" = (some "storage" : Option String) ∧ C9ndC.value = .s "sstore")
      ∨ (some "storage" = (some "memory" : Option String) ∧ C9ndC.value = .s "mstore"))
    ∧ (none : Option LLLnode) = none := by
  have hs : make_setter 1 C9leftC C9rightC (some "storage") false
      = .ok (some C9ndC) := by
    simp [make_setter, C9leftC, C9rightC, C9ndC, base_type_conversion,
      unwrap_location, LLLnode.typ, LLLnode.value, LLLnode.loc, LLLnode.args,
      strContains, in_bounds, op, num, is_base_type, areUnitsCompatibleOpt,
      are_units_compatible, isBaseInstance]
  have hc : make_setter 1 C9leftC C9rightC (some "calldata") false
      = .ok none := by
    simp [make_setter, C9leftC, C9rightC, base_type_conversion,
      unwrap_location, LLLnode.typ, LLLnode.value, LLLnode.loc, LLLnode.args,
      strContains, in_bounds, op, num, is_base_type, areUnitsCompatibleOpt,
      are_units_compatible, isBaseInstance]
  exact ⟨(C9_base_store_only_for_storage_or_memory 0 (.i 64) []
      "int128" none false false false none C9rightC (some "storage") false).1
        C9ndC hs,
    (C9_base_store_only_for_storage_or_memory 0 (.i 64) []
      "int128" none false false false none C9rightC (some "calldata") false).2
        (by simp) (by simp) none hc⟩

/-- C10: add_variable_offset never returns a child node tagged
storage_prehashed, and a Struct, Tuple or List parent located in
storage_prehashed resolves to a child tagged plain storage — the prehash
shortcut applies to exactly one level of resolution. -/
theorem C10_no_prehashed_child (parent : LLLnode) (key : VKey) (abc : Bool) :
    ∀ child, add_variable_offset parent key abc = .ok (some child) →
      child.loc ≠ some "storage_prehashed"
      ∧ (parent.loc = some "storage_prehashed" →
          child.loc = some "storage") := by
  intro child h
  simp only [add_variable_offset] at h
  repeat' split at h
  all_goals (try cases h)
  all_goals simp_all [LLLnode.loc]

/-- The storage_prehashed list parent of the C10 witness. -/
def C10parentC : LLLnode :=
  .mk (.i 5) [] (some (.listT (.base "int128" none false false false) 3))
    (some "storage_prehashed")

/-- The child node add_variable_offset returns for the C10 witness. -/
def C10childC : LLLnode :=
  .mk (.s "add") [C10parentC, intNode 0]
    (some (.base "int128" none false false false)) (some "storage")

/-- C10 witness: descending into a storage_prehashed list yields a child
tagged storage, not storage_prehashed. -/
theorem C10_no_prehashed_child_witness :
    C10childC.loc ≠ some "storage_prehashed"
    ∧ (C10parentC.loc = some "storage_prehashed" →
        C10childC.loc = some "storage") :=
  C10_no_prehashed_child C10parentC (.node (intNode 0)) false C10childC rfl

/-- C3: for a List parent with bounds checking enabled, a compile-time
literal index is checked at compile time — an out-of-range literal raises the
Bounds (ArrayIndexException) error before any node is produced, and an
in-range literal makes the emitted child use the unwrapped index directly
with no runtime clamp; a non-literal index makes the emitted child wrap the
unwrapped index in an unsigned-less-than clamp against count, whose runtime
semantics only ever passes values below count (negative indices, being huge
in the unsigned representation, are rejected). -/
theorem C3_list_bounds_checks
    (pv : NodeVal) (pargs : List LLLnode) (st : VType) (cnt : Nat)
    (loc : String) (kv : NodeVal) (kargs : List LLLnode) (bt : String)
    (ku : Option String) (kp lit : Bool) (kloc : Option String)
    (hbt : bt = "int128" ∨ bt = "uint256") :
    (∀ n : Int, lit = true → kv = .i n → (n < 0 ∨ (cnt : Int) ≤ n) →
      add_variable_offset (.mk pv pargs (some (.listT st cnt)) (some loc))
        (.node (.mk kv kargs (some (.base bt ku kp lit false)) kloc)) true
        = .error .arrayIndex)
    ∧ (∀ n : Int, lit = true → kv = .i n → 0 ≤ n → n < (cnt : Int) →
        (loc = "storage" →
          add_variable_offset (.mk pv pargs (some (.listT st cnt)) (some loc))
            (.node (.mk kv kargs (some (.base bt ku kp lit false)) kloc)) true
            = .ok (some (.mk (.s "add")
              [op "sha3_32" [.mk pv pargs (some (.listT st cnt)) (some loc)],
                unwrap_location (.mk kv kargs (some (.base bt ku kp lit false)) kloc)]
              (some st) (some "storage"))))
        ∧ (loc = "memory" ∨ loc = "calldata" →
          add_variable_offset (.mk pv pargs (some (.listT st cnt)) (some loc))
            (.node (.mk kv kargs (some (.base bt ku kp lit false)) kloc)) true
            = .ok (some (.mk (.s "add")
              [op "mul" [num (32 * (get_size_of_type st : Int)),
                unwrap_location (.mk kv kargs (some (.base bt ku kp lit false)) kloc)],
                .mk pv pargs (some (.listT st cnt)) (some loc)]
              (some st) (some loc)))))
    ∧ (lit = false →
        (loc = "storage" →
          add_variable_offset (.mk pv pargs (some (.listT st cnt)) (some loc))
            (.node (.mk kv kargs (some (.base bt ku kp lit false)) kloc)) true
            = .ok (some (.mk (.s "add")
              [op "sha3_32" [.mk pv pargs (some (.listT st cnt)) (some loc)],
                op "uclamplt"
                  [unwrap_location (.mk kv kargs (some (.base bt ku kp lit false)) kloc),
                    num cnt]]
              (some st) (some "storage"))))
        ∧ (loc = "memory" ∨ loc = "calldata" →
          add_variable_offset (.mk pv pargs (some (.listT st cnt)) (some loc))
            (.node (.mk kv kargs (some (.base bt ku kp lit false)) kloc)) true
            = .ok (some (.mk (.s "add")
              [op "mul" [num (32 * (get_size_of_type st : Int)),
                op "uclamplt"
                  [unwrap_location (.mk kv kargs (some (.base bt ku kp lit false)) kloc),
                    num cnt]],
                .mk pv pargs (some (.listT st cnt)) (some loc)]
              (some st) (some loc)))))
    ∧ (∀ w r : Nat, uclampltSem cnt w = some r → r < cnt) := by
  have hc : is_base_type (some (.base bt ku kp lit false))
      ["int128", "uint256"] = true := by
    rcases hbt with h | h <;> simp [is_base_type, h]
  refine ⟨?_, ?_, ?_, ?_⟩
  · intro n hl hkv hoob
    subst hl; subst hkv
    simp [add_variable_offset, LLLnode.typ, LLLnode.loc, LLLnode.value, hc,
      VType.isLiteralAttr, hoob]
  · intro n hl hkv h0 hlt
    subst hl; subst hkv
    have hin : ¬(n < 0 ∨ (cnt : Int) ≤ n) := by omega
    constructor
    · intro hloc; subst hloc
      simp [add_variable_offset, LLLnode.typ, LLLnode.loc, LLLnode.value, hc,
        VType.isLiteralAttr, hin]
    · intro hloc
      rcases hloc with hloc | hloc <;> subst hloc <;>
        simp [add_variable_offset, LLLnode.typ, LLLnode.loc, LLLnode.value, hc,
          VType.isLiteralAttr, hin]
  · intro hl
    subst hl
    constructor
    · intro hloc; subst hloc
      simp [add_variable_offset, LLLnode.typ, LLLnode.loc, LLLnode.value, hc,
        VType.isLiteralAttr]
    · intro hloc
      rcases hloc with hloc | hloc <;> subst hloc <;>
        simp [add_variable_offset, LLLnode.typ, LLLnode.loc, LLLnode.value, hc,
          VType.isLiteralAttr]
  · intro w r h
    simp [uclampltSem] at h
    omega

/-- C3 witness: indexing a List of 5 elements with the literal 5 raises the
compile-time Bounds error. -/
theorem C3_list_bounds_checks_witness :
    add_variable_offset
      (.mk (.i 7) []
        (some (.listT (.base "int128" none false false false) 5)) (some "storage"))
      (.node (.mk (.i 5) [] (some (.base "int128" none false true false)) none))
      true = .error .arrayIndex :=
  (C3_list_bounds_checks (.i 7) [] (.base "int128" none false false false) 5
    "storage" (.i 5) [] "int128" none false true none (Or.inl rfl)).1
    5 rfl rfl (Or.inr (by norm_num))

/-- make_byte_slice_copier can fail only with a CompilerPanic (unsupported
location), never with a type mismatch. -/
theorem make_byte_slice_copier_no_type_mismatch (d s l : LLLnode) (ml : Int) :
    make_byte_slice_copier d s l ml ≠ .error .typeMismatch := by
  intro h
  by_cases h1 : s.loc = some "memory" ∧ d.loc = some "memory" <;>
  by_cases h2 : s.value = .nullv <;>
  by_cases h3 : d.loc = some "memory" <;>
  by_cases h4 : s.loc = some "memory" <;>
  by_cases h5 : s.loc = some "storage" <;>
  by_cases h6 : d.loc = some "storage" <;>
    simp_all [make_byte_slice_copier, mzero]

/-- C7: make_byte_array_copier rejects, with a type-mismatch error, every
source whose maximum byte length exceeds the destination's, and every
null-valued source whose maximum length is not exactly the destination's;
when neither bound precondition is violated it never raises a type-mismatch
error (the remaining failure mode is only the CompilerPanic for unsupported
locations). -/
theorem C7_byte_copier_bound_checks
    (dv : NodeVal) (dargs : List LLLnode) (dty : VType) (dloc : Option String)
    (sv : NodeVal) (sargs : List LLLnode) (sty : VType) (sloc : Option String)
    (hS : sty.isByteArrayLike = true) (hD : dty.isByteArrayLike = true) :
    (sty.maxlenOf > dty.maxlenOf →
      make_byte_array_copier (.mk dv dargs (some dty) dloc)
        (.mk sv sargs (some sty) sloc) = .error .typeMismatch)
    ∧ (sv = .nullv → sty.maxlenOf ≠ dty.maxlenOf →
      make_byte_array_copier (.mk dv dargs (some dty) dloc)
        (.mk sv sargs (some sty) sloc) = .error .typeMismatch)
    ∧ (sty.maxlenOf ≤ dty.maxlenOf → (sv = .nullv → sty.maxlenOf = dty.maxlenOf) →
      make_byte_array_copier (.mk dv dargs (some dty) dloc)
        (.mk sv sargs (some sty) sloc) ≠ .error .typeMismatch) := by
  refine ⟨?_, ?_, ?_⟩
  · intro hgt
    simp [make_byte_array_copier, getMaxlen, hS, hD, LLLnode.typ,
      LLLnode.value, LLLnode.loc, hgt]
  · intro hnull hne
    by_cases hgt : sty.maxlenOf > dty.maxlenOf
    · simp [make_byte_array_copier, getMaxlen, hS, hD, LLLnode.typ,
        LLLnode.value, LLLnode.loc, hgt]
    · simp [make_byte_array_copier, getMaxlen, hS, hD, LLLnode.typ,
        LLLnode.value, LLLnode.loc, hgt, hnull, hne]
  · intro hle heqn h
    have hgt : ¬ sty.maxlenOf > dty.maxlenOf := by omega
    have hnl : ¬ (sv = .nullv ∧ sty.maxlenOf ≠ dty.maxlenOf) := by
      rintro ⟨ha, hb⟩; exact hb (heqn ha)
    by_cases hm : sloc = some "memory" ∧ dloc = some "memory" <;>
    by_cases hn : sv = .nullv <;>
    by_cases hs1 : sloc = some "memory" <;>
    by_cases hs2 : sloc = some "storage" <;>
      simp_all [make_byte_array_copier, getMaxlen, hS, hD, LLLnode.typ,
        LLLnode.value, LLLnode.loc] <;>
      (repeat' split at h) <;>
        first
          | exact make_byte_slice_copier_no_type_mismatch _ _ _ _ (by assumption)
          | simp_all <;>
              exact make_byte_slice_copier_no_type_mismatch _ _ _ _ (by assumption)

/-- C7 witness: copying a bytes[40] source into a bytes[20] destination is a
compile-time type mismatch, and a supported non-narrowing copy (memory to
memory with equal bounds) does not raise one. -/
theorem C7_byte_copier_bound_checks_witness :
    make_byte_array_copier
      (.mk (.i 64) [] (some (.byteArrayT 20)) (some "memory"))
      (.mk (.i 256) [] (some (.byteArrayT 40)) (some "memory"))
      = .error .typeMismatch
    ∧ make_byte_array_copier
        (.mk (.i 64) [] (some (.byteArrayT 40)) (some "memory"))
        (.mk (.i 256) [] (some (.byteArrayT 40)) (some "memory"))
        ≠ .error .typeMismatch :=
  ⟨(C7_byte_copier_bound_checks (.i 64) [] (.byteArrayT 20) (some "memory")
      (.i 256) [] (.byteArrayT 40) (some "memory") rfl rfl).1 (by decide),
   (C7_byte_copier_bound_checks (.i 64) [] (.byteArrayT 40) (some "memory")
      (.i 256) [] (.byteArrayT 40) (some "memory") rfl rfl).2.2 (by decide)
      (fun hv => by cases hv)⟩

/-- C8: for a Struct destination with a non-null source, make_setter raises a
static type-mismatch error whenever the source is not Struct-typed (in
particular for a Tuple source whose members happen to match positionally),
whenever the member-key sets differ in either direction, and whenever the
nominal struct names differ; and for a Tuple destination, a non-null source
Tuple of different arity raises a type-mismatch error. -/
theorem C8_struct_tuple_nominal_checks (fuel : Nat)
    (lv : NodeVal) (largs : List LLLnode) (lloc : Option String)
    (lname : String) (lms : List (String × VType))
    (right : LLLnode) (location : Option String) (ifc : Bool)
    (hlv : lv ≠ .s "multi") (hrv : right.value ≠ .nullv) :
    ((∀ rn rms, right.typ ≠ some (.structT rn rms)) →
      make_setter (fuel + 1) (.mk lv largs (some (.structT lname lms)) lloc)
        right location ifc = .error .typeMismatch)
    ∧ (∀ rn rms, right.typ = some (.structT rn rms) →
        (∀ k ∈ right.args, k.value ≠ .nullv) →
        ((∃ k ∈ lms.map Prod.fst, k ∉ rms.map Prod.fst)
          ∨ (∃ k ∈ rms.map Prod.fst, k ∉ lms.map Prod.fst)
          ∨ lname ≠ rn) →
        make_setter (fuel + 1) (.mk lv largs (some (.structT lname lms)) lloc)
          right location ifc = .error .typeMismatch)
    ∧ (∀ (lv2 : NodeVal) (largs2 : List LLLnode) (lloc2 : Option String)
          (lts rts : List VType),
        right.typ = some (.tupleT rts) → lts.length ≠ rts.length →
        make_setter (fuel + 1) (.mk lv2 largs2 (some (.tupleT lts)) lloc2)
          right location ifc = .error .typeMismatch) := by
  obtain ⟨rv, rargs, rtyp, rloc⟩ := right
  replace hrv : rv ≠ .nullv := fun h => hrv (by simp [LLLnode.value, h])
  refine ⟨?_, ?_, ?_⟩
  · intro hns
    rcases rtyp with - | t
    · simp [make_setter, LLLnode.typ, LLLnode.value, hlv, hrv]
    · cases t
      case structT rn rms =>
        exact absurd
          (rfl : (LLLnode.mk rv rargs (some (.structT rn rms)) rloc).typ
            = some (.structT rn rms)) (hns rn rms)
      all_goals simp [make_setter, LLLnode.typ, LLLnode.value, hlv, hrv]
  · intro rn rms hrt hnn hmis
    simp only [LLLnode.typ] at hrt
    subst hrt
    simp only [LLLnode.args] at hnn
    have h0 : List.find? (fun k => decide ((match k with
        | LLLnode.mk v _ _ _ => v) = NodeVal.nullv)) rargs = none := by
      rw [List.find?_eq_none]
      intro x hx
      simpa [LLLnode.value] using hnn x hx
    rcases hA : List.find? (fun k => !((List.map Prod.fst rms).contains k))
        (List.map Prod.fst lms) with - | w
    · rcases hB : List.find? (fun k => !((List.map Prod.fst lms).contains k))
          (List.map Prod.fst rms) with - | w2
      · have hname : lname ≠ rn := by
          rcases hmis with ⟨k, hk, hknot⟩ | ⟨k, hk, hknot⟩ | hname
          · exact absurd (List.find?_eq_none.mp hA k hk) (by simpa using hknot)
          · exact absurd (List.find?_eq_none.mp hB k hk) (by simpa using hknot)
          · exact hname
        simp only [make_setter, LLLnode.typ, LLLnode.value, LLLnode.args,
          LLLnode.loc, h0, hA, hB, if_neg hlv, if_pos hrv, if_pos hname]
      · simp only [make_setter, LLLnode.typ, LLLnode.value, LLLnode.args,
          LLLnode.loc, h0, hA, hB, if_neg hlv, if_pos hrv]
    · simp only [make_setter, LLLnode.typ, LLLnode.value, LLLnode.args,
        LLLnode.loc, h0, hA, if_neg hlv, if_pos hrv]
  · intro lv2 largs2 lloc2 lts rts hrt hlen
    simp only [LLLnode.typ] at hrt
    subst hrt
    simp [make_setter, LLLnode.typ, LLLnode.value, hrv, hlen]

/-- The nominal struct destination of the C8 witness. -/
def C8leftC : LLLnode :=
  .mk (.i 320) []
    (some (.structT "Pair" [("a", .base "int128" none false false false),
      ("b", .base "int128" none false false false)])) (some "memory")

/-- The positionally matching tuple source of the C8 witness. -/
def C8rightC : LLLnode :=
  .mk (.s "_R") []
    (some (.tupleT [.base "int128" none false false false,
      .base "int128" none false false false])) (some "memory")

/-- C8 witness: assigning a Tuple-shaped source into a Struct destination
whose member types match positionally is still a type mismatch. -/
theorem C8_struct_tuple_nominal_checks_witness :
    make_setter 1 C8leftC C8rightC (some "memory") false
      = .error .typeMismatch :=
  (C8_struct_tuple_nominal_checks 0 (.i 320) [] (some "memory") "Pair"
    [("a", .base "int128" none false false false),
      ("b", .base "int128" none false false false)]
    C8rightC (some "memory") false (by simp) (by simp [C8rightC, LLLnode.value])).1
    (fun rn rms => by simp [C8rightC, LLLnode.typ])

end Vyper
